import Mathlib

/-!
# Verification of the flwp prompt/idea UI state machine

Shallow embedding of `src/App.tsx` (the `App` component): its UI state,
the `handleGeneratePrompt` and `handleGenerateIdeas` handlers, the
`GenreSelector` `onChange` handler and the Change Genre button handler.

External parts not present under `src/` are abstracted:
* `PROMPTS` (from `constants.ts`) appears as a `List Prompt` parameter
  `prompts`; a concrete modelled list `PROMPTS` is given for witnesses.
* `generateStoryIdeas` (from `services/geminiService.ts`) appears as a
  parameter of type `Prompt → Except (Option String) (List String)`:
  a successful call resolves with a list of idea strings, a failed call
  throws a value whose `.message` field is the `Option String`
  (`none` when the thrown value carries no message).
* `Math.floor(Math.random() * filteredPrompts.length)` appears as a
  `randomIndex : Nat` parameter; since `Math.random () < 1`, a real run
  always has `randomIndex < filteredPrompts.length` when the list is
  non-empty, which theorems take as a hypothesis.
-/

/-- `Prompt` (from `types.ts`, described in the spec): an immutable record
with a genre label and prompt text. -/
structure Prompt where
  genre : String
  text : String
deriving DecidableEq, Repr

/-- The React state of the `App` component (`src/App.tsx` lines 13–17):
`currentPrompt`, `storyIdeas`, `isLoadingIdeas`, `error`, `selectedGenre`. -/
structure AppState where
  currentPrompt : Option Prompt
  storyIdeas : List String
  isLoadingIdeas : Bool
  error : Option String
  selectedGenre : String
deriving DecidableEq, Repr

/-- The initial state of the component (`useState` initialisers,
`src/App.tsx` lines 13–17). -/
def initialState : AppState :=
  { currentPrompt := none
  , storyIdeas := []
  , isLoadingIdeas := false
  , error := none
  , selectedGenre := "All" }

/-- Modelled from the spec: the fixed, pre-populated prompt list `PROMPTS`
(`constants.ts` is not under `src/`). The spec fixes only that it is a
static list of genre-tagged prompts; theorems are proved for an arbitrary
list, and this concrete list is used in witnesses. -/
def PROMPTS : List Prompt :=
  [ ⟨"Fantasy", "A dragon hoards books instead of gold."⟩
  , ⟨"Sci-Fi", "The last human wakes on an empty station."⟩
  , ⟨"Mystery", "Every clock in town stops at 3:07."⟩ ]

/-- The filtered prompt list computed by `handleGeneratePrompt`
(`src/App.tsx` lines 23–25): all prompts when the selected genre is
`"All"`, otherwise those whose genre equals the selected genre. -/
def filteredPrompts (prompts : List Prompt) (selectedGenre : String) : List Prompt :=
  if selectedGenre = "All" then prompts
  else prompts.filter (fun p => p.genre = selectedGenre)

/-- The error message of `handleGeneratePrompt` when the filter matches
nothing (`src/App.tsx` line 28). -/
def noPromptsMsg (selectedGenre : String) : String :=
  "No prompts found for the \"" ++ selectedGenre ++ "\" genre. Please select another."

/-- `handleGeneratePrompt` (`src/App.tsx` lines 21–35). It first clears
the error, filters `prompts` by the selected genre, and either reports
that no prompts match, or picks the prompt at `randomIndex` and clears
the idea list. The JavaScript indexing `filteredPrompts[randomIndex]`
is embedded as `List.get?` (`undefined` becomes `none`); a real run has
`randomIndex` in range. -/
def handleGeneratePrompt (prompts : List Prompt) (randomIndex : Nat)
    (s : AppState) : AppState :=
  let s0 := { s with error := none }
  let fp := filteredPrompts prompts s0.selectedGenre
  if fp.length = 0 then
    { s0 with error := some (noPromptsMsg s0.selectedGenre) }
  else
    { s0 with currentPrompt := fp.get? randomIndex, storyIdeas := [] }

/-- The error message shown by `handleGenerateIdeas` when no API key is
configured (`src/App.tsx` line 40). -/
def noApiKeyMsg : String := "AI features are disabled. Please configure your API key."

/-- The fallback error message of `handleGenerateIdeas` (`src/App.tsx`
line 52). -/
def unknownErrorMsg : String := "An unknown error occurred."

/-- JavaScript `e.message || fallback` (`src/App.tsx` line 52): the
thrown value's message if present and non-empty (the only falsy string
is `""`), else the fallback. -/
def jsMessageOr (msg : Option String) (fallback : String) : String :=
  match msg with
  | some m => if m = "" then fallback else m
  | none => fallback

/-- `handleGenerateIdeas` (`src/App.tsx` lines 37–56), instrumented: the
result is the list of states the component passes through (one entry per
React state-update batch, ending with the final state) together with the
number of calls made to `generateStoryIdeas`.

* line 38: if `currentPrompt` is `null`, return (no state change);
* lines 39–42: if there is no API key, set the error and return;
* lines 44–46: set the loading flag, clear the error and the idea list;
* lines 48–55: call `generateStoryIdeas currentPrompt`; on success store
  the ideas, on failure store `e.message || "An unknown error occurred."`;
  in both cases clear the loading flag (`finally`). -/
def handleGenerateIdeasRun (hasApiKey : Bool)
    (generateStoryIdeas : Prompt → Except (Option String) (List String))
    (s : AppState) : List AppState × Nat :=
  match s.currentPrompt with
  | none => ([s], 0)
  | some prompt =>
    if hasApiKey = false then
      ([{ s with error := some noApiKeyMsg }], 0)
    else
      let s1 := { s with isLoadingIdeas := true, error := none, storyIdeas := [] }
      match generateStoryIdeas prompt with
      | Except.ok ideas =>
          ([s1, { s1 with storyIdeas := ideas, isLoadingIdeas := false }], 1)
      | Except.error msg =>
          ([s1, { s1 with error := some (jsMessageOr msg unknownErrorMsg), isLoadingIdeas := false }], 1)

/-- The final state after `handleGenerateIdeas` completes. -/
def handleGenerateIdeas (hasApiKey : Bool)
    (generateStoryIdeas : Prompt → Except (Option String) (List String))
    (s : AppState) : AppState :=
  (handleGenerateIdeasRun hasApiKey generateStoryIdeas s).1.getLastD s

/-- The Change Genre button's `onClick` handler (`src/App.tsx`
lines 105–108): unset the current prompt and clear the idea list. -/
def changeGenreClick (s : AppState) : AppState :=
  { s with currentPrompt := none, storyIdeas := [] }

/-- The `GenreSelector` `onChange` handler (`src/App.tsx` lines 66–71):
set the selected genre, unset the current prompt, clear the idea list
and the error. -/
def genreSelectorOnChange (g : String) (s : AppState) : AppState :=
  { s with selectedGenre := g, currentPrompt := none, storyIdeas := [], error := none }

/-- The user-visible events of the `App` component. Each carries the
environment data its handler consumes: the prompt list and random draw
for Generate a Prompt, the API-key flag and AI-service behaviour for
Spark Creativity. -/
inductive Event where
  | generatePrompt (prompts : List Prompt) (randomIndex : Nat)
  | generateIdeas (hasApiKey : Bool)
      (generateStoryIdeas : Prompt → Except (Option String) (List String))
  | changeGenre
  | selectGenre (g : String)

/-- The states the component passes through while handling one event
(only `handleGenerateIdeas` has an intermediate state). -/
def stepStates : Event → AppState → List AppState
  | Event.generatePrompt prompts randomIndex, s =>
      [handleGeneratePrompt prompts randomIndex s]
  | Event.generateIdeas hasApiKey gen, s =>
      (handleGenerateIdeasRun hasApiKey gen s).1
  | Event.changeGenre, s => [changeGenreClick s]
  | Event.selectGenre g, s => [genreSelectorOnChange g s]

/-- Reachable UI states: the initial state, and every state (intermediate
states included) the component passes through while handling an event
from a reachable state. -/
inductive Reachable : AppState → Prop where
  | init : Reachable initialState
  | step (e : Event) (s s' : AppState) :
      Reachable s → s' ∈ stepStates e s → Reachable s'


/-! ## Helper lemmas -/

/-- Every state in the trace of `handleGenerateIdeas` carries the
`currentPrompt` and `selectedGenre` of the entry state: the handler never
writes either field. -/
theorem handleGenerateIdeasRun_frame (hasApiKey : Bool)
    (gen : Prompt → Except (Option String) (List String)) (s : AppState) :
    ∀ t ∈ (handleGenerateIdeasRun hasApiKey gen s).1,
      t.currentPrompt = s.currentPrompt ∧ t.selectedGenre = s.selectedGenre := by
  intro t ht
  obtain ⟨cp, ideas0, load0, err0, g0⟩ := s
  cases cp with
  | none =>
      simp only [handleGenerateIdeasRun, List.mem_singleton] at ht
      subst ht
      exact ⟨rfl, rfl⟩
  | some p =>
      cases hasApiKey with
      | false =>
          simp [handleGenerateIdeasRun] at ht
          subst ht
          exact ⟨rfl, rfl⟩
      | true =>
          cases hgen : gen p with
          | ok ideas =>
              simp [handleGenerateIdeasRun, hgen] at ht
              rcases ht with rfl | rfl <;> exact ⟨rfl, rfl⟩
          | error m =>
              simp [handleGenerateIdeasRun, hgen] at ht
              rcases ht with rfl | rfl <;> exact ⟨rfl, rfl⟩

/-- The step relation preserves the invariant: a non-empty idea list
implies a selected prompt. -/
theorem inv_stepStates (e : Event) (s s' : AppState)
    (hs : s.storyIdeas ≠ [] → s.currentPrompt ≠ none)
    (hmem : s' ∈ stepStates e s) :
    s'.storyIdeas ≠ [] → s'.currentPrompt ≠ none := by
  cases e with
  | generatePrompt prompts randomIndex =>
      simp only [stepStates, List.mem_singleton] at hmem
      subst hmem
      obtain ⟨cp, ideas0, load0, err0, g0⟩ := s
      by_cases hlen : (filteredPrompts prompts g0).length = 0
      · simpa [handleGeneratePrompt, hlen] using hs
      · simp [handleGeneratePrompt, hlen]
  | generateIdeas hasApiKey gen =>
      simp only [stepStates] at hmem
      have hfr := (handleGenerateIdeasRun_frame hasApiKey gen s s' hmem).1
      cases hcp : s.currentPrompt with
      | none =>
          obtain ⟨cp, ideas0, load0, err0, g0⟩ := s
          cases hcp
          simp only [handleGenerateIdeasRun, List.mem_singleton] at hmem
          subst hmem
          exact hs
      | some p =>
          intro _
          rw [hfr, hcp]
          exact fun hx => Option.noConfusion hx
  | changeGenre =>
      simp only [stepStates, List.mem_singleton] at hmem
      subst hmem
      intro hne
      exact absurd rfl hne
  | selectGenre g =>
      simp only [stepStates, List.mem_singleton] at hmem
      subst hmem
      intro hne
      exact absurd rfl hne

/-- Every reachable state satisfies the invariant: the idea list is
non-empty only when a prompt is selected. -/
theorem reachable_inv (s : AppState) (h : Reachable s) :
    s.storyIdeas ≠ [] → s.currentPrompt ≠ none := by
  induction h with
  | init =>
      intro hne
      exact absurd rfl hne
  | step e t s' _ hmem ih =>
      exact inv_stepStates e t s' ih hmem

/-- `handleGenerateIdeas` makes no state change and no AI call when no
prompt is selected (`src/App.tsx` line 38). -/
theorem handleGenerateIdeasRun_no_prompt
    (hasApiKey : Bool) (gen : Prompt → Except (Option String) (List String))
    (t : AppState) (ht : t.currentPrompt = none) :
    handleGenerateIdeasRun hasApiKey gen t = ([t], 0) := by
  obtain ⟨cp, i0, l0, e0, g0⟩ := t
  simp only [AppState.currentPrompt] at ht
  subst ht
  rfl

/-- The final state of `handleGenerateIdeas` is one of the states of its
trace. -/
theorem handleGenerateIdeas_mem_run
    (hasApiKey : Bool) (gen : Prompt → Except (Option String) (List String))
    (s : AppState) :
    handleGenerateIdeas hasApiKey gen s ∈ (handleGenerateIdeasRun hasApiKey gen s).1 := by
  obtain ⟨cp, i0, l0, e0, g0⟩ := s
  cases cp with
  | none => simp [handleGenerateIdeas, handleGenerateIdeasRun]
  | some p =>
      cases hasApiKey with
      | false => simp [handleGenerateIdeas, handleGenerateIdeasRun]
      | true =>
          cases hgen : gen p with
          | ok ideas => simp [handleGenerateIdeas, handleGenerateIdeasRun, hgen]
          | error m => simp [handleGenerateIdeas, handleGenerateIdeasRun, hgen]

/-! ## Claim theorems -/

/-- Claim C1: in every reachable UI state (intermediate states included)
the idea list is non-empty only when a prompt is selected; the Change
Genre button and a genre-selector change both unset the prompt and empty
the idea list; and generating ideas changes nothing (and stores nothing)
when no prompt is shown. -/
theorem reachable_ideaList_nonempty_only_with_prompt
    (s : AppState) (h : Reachable s) :
    (s.storyIdeas ≠ [] → s.currentPrompt ≠ none) ∧
    (∀ t : AppState,
      (changeGenreClick t).currentPrompt = none ∧ (changeGenreClick t).storyIdeas = []) ∧
    (∀ (g : String) (t : AppState),
      (genreSelectorOnChange g t).currentPrompt = none ∧
      (genreSelectorOnChange g t).storyIdeas = []) ∧
    (∀ (hasApiKey : Bool) (gen : Prompt → Except (Option String) (List String))
       (t : AppState), t.currentPrompt = none →
      handleGenerateIdeasRun hasApiKey gen t = ([t], 0)) := by
  refine ⟨reachable_inv s h, fun t => ⟨rfl, rfl⟩, fun g t => ⟨rfl, rfl⟩,
    fun hasApiKey gen t ht => handleGenerateIdeasRun_no_prompt hasApiKey gen t ht⟩

/-- Witness for C1 at the initial state. -/
theorem reachable_ideaList_nonempty_only_with_prompt_witness :
    (initialState.storyIdeas ≠ [] → initialState.currentPrompt ≠ none) ∧
    (∀ t : AppState,
      (changeGenreClick t).currentPrompt = none ∧ (changeGenreClick t).storyIdeas = []) ∧
    (∀ (g : String) (t : AppState),
      (genreSelectorOnChange g t).currentPrompt = none ∧
      (genreSelectorOnChange g t).storyIdeas = []) ∧
    (∀ (hasApiKey : Bool) (gen : Prompt → Except (Option String) (List String))
       (t : AppState), t.currentPrompt = none →
      handleGenerateIdeasRun hasApiKey gen t = ([t], 0)) :=
  reachable_ideaList_nonempty_only_with_prompt initialState Reachable.init

/-- Claim C2: a prompt set as current by `handleGeneratePrompt` (a real
run has the random index in range) is an element of the prompt list, and
when the selected genre is not `"All"` its genre equals the selected
genre. -/
theorem generatePrompt_chooses_from_prompts
    (prompts : List Prompt) (randomIndex : Nat) (s : AppState) (p : Prompt)
    (hidx : randomIndex < (filteredPrompts prompts s.selectedGenre).length)
    (hset : (handleGeneratePrompt prompts randomIndex s).currentPrompt = some p) :
    p ∈ prompts ∧ (s.selectedGenre ≠ "All" → p.genre = s.selectedGenre) := by
  obtain ⟨cp, i0, l0, e0, g0⟩ := s
  simp only [AppState.selectedGenre] at hidx
  have hlen : (filteredPrompts prompts g0).length ≠ 0 := by omega
  simp [handleGeneratePrompt, hlen] at hset
  have hmem : p ∈ filteredPrompts prompts g0 := List.getElem?_mem hset
  simp only [AppState.selectedGenre]
  by_cases hg : g0 = "All"
  · subst hg
    refine ⟨by simpa [filteredPrompts] using hmem, fun hne => absurd rfl hne⟩
  · simp [filteredPrompts, hg] at hmem
    exact ⟨hmem.1, fun _ => hmem.2⟩

/-- Witness for C2: genre `"Fantasy"`, random index 0, the modelled
`PROMPTS`. -/
theorem generatePrompt_chooses_from_prompts_witness :
    0 < (filteredPrompts PROMPTS "Fantasy").length ∧
    (Prompt.mk "Fantasy" "A dragon hoards books instead of gold.") ∈ PROMPTS ∧
    ((AppState.mk none [] false none "Fantasy").selectedGenre ≠ "All" →
      (Prompt.mk "Fantasy" "A dragon hoards books instead of gold.").genre =
        (AppState.mk none [] false none "Fantasy").selectedGenre) :=
  ⟨by decide,
   generatePrompt_chooses_from_prompts PROMPTS 0 (AppState.mk none [] false none "Fantasy")
     (Prompt.mk "Fantasy" "A dragon hoards books instead of gold.")
     (by decide) (by decide)⟩

/-- Claim C3: each generation request replaces the idea list wholesale:
`handleGenerateIdeas` first empties it (the first trace state has an
empty list) and on success sets it to exactly the returned sequence,
whatever the previous list was; and `handleGeneratePrompt` (in range)
sets the new prompt and empties the list. -/
theorem ideaList_replaced_wholesale
    (prompts : List Prompt) (randomIndex : Nat)
    (gen : Prompt → Except (Option String) (List String))
    (s : AppState) (p : Prompt) (ideas : List String)
    (hp : s.currentPrompt = some p)
    (hok : gen p = Except.ok ideas)
    (hidx : randomIndex < (filteredPrompts prompts s.selectedGenre).length) :
    (handleGenerateIdeas true gen s).storyIdeas = ideas ∧
    ((handleGenerateIdeasRun true gen s).1.headD s).storyIdeas = [] ∧
    (handleGeneratePrompt prompts randomIndex s).storyIdeas = [] ∧
    (handleGeneratePrompt prompts randomIndex s).currentPrompt =
      (filteredPrompts prompts s.selectedGenre).get? randomIndex := by
  obtain ⟨cp, i0, l0, e0, g0⟩ := s
  simp only [AppState.currentPrompt] at hp
  subst hp
  simp only [AppState.selectedGenre] at hidx ⊢
  have hlen : (filteredPrompts prompts g0).length ≠ 0 := by omega
  refine ⟨?_, ?_, ?_, ?_⟩ <;>
    simp [handleGenerateIdeas, handleGenerateIdeasRun, handleGeneratePrompt, hok, hlen]

/-- Witness for C3: a previous idea list `["old"]` is replaced by the
returned `["idea one"]`. -/
theorem ideaList_replaced_wholesale_witness :
    (handleGenerateIdeas true (fun _ => Except.ok ["idea one"])
        (AppState.mk (some (Prompt.mk "Fantasy" "x")) ["old"] false none "Fantasy")).storyIdeas
      = ["idea one"] ∧
    ((handleGenerateIdeasRun true (fun _ => Except.ok ["idea one"])
        (AppState.mk (some (Prompt.mk "Fantasy" "x")) ["old"] false none "Fantasy")).1.headD
        (AppState.mk (some (Prompt.mk "Fantasy" "x")) ["old"] false none "Fantasy")).storyIdeas
      = [] ∧
    (handleGeneratePrompt PROMPTS 0
        (AppState.mk (some (Prompt.mk "Fantasy" "x")) ["old"] false none "Fantasy")).storyIdeas
      = [] ∧
    (handleGeneratePrompt PROMPTS 0
        (AppState.mk (some (Prompt.mk "Fantasy" "x")) ["old"] false none "Fantasy")).currentPrompt
      = (filteredPrompts PROMPTS "Fantasy").get? 0 :=
  ideaList_replaced_wholesale PROMPTS 0 (fun _ => Except.ok ["idea one"])
    (AppState.mk (some (Prompt.mk "Fantasy" "x")) ["old"] false none "Fantasy")
    (Prompt.mk "Fantasy" "x") ["idea one"] rfl rfl (by decide)

/-- Claim C4: the loading flag is entered only from a state showing a
prompt, and a run that enters loading finishes with loading off and
either the returned ideas stored or the error message stored; a run from
a state with no prompt changes nothing. -/
theorem loading_flow
    (hasApiKey : Bool) (gen : Prompt → Except (Option String) (List String))
    (s : AppState)
    (hnl : s.isLoadingIdeas = false)
    (hload : ∃ t ∈ (handleGenerateIdeasRun hasApiKey gen s).1, t.isLoadingIdeas = true) :
    (∃ p, s.currentPrompt = some p ∧
      (handleGenerateIdeas hasApiKey gen s).isLoadingIdeas = false ∧
      ((∃ ideas, gen p = Except.ok ideas ∧
          (handleGenerateIdeas hasApiKey gen s).storyIdeas = ideas) ∨
       (∃ m, gen p = Except.error m ∧
          (handleGenerateIdeas hasApiKey gen s).error =
            some (jsMessageOr m unknownErrorMsg)))) ∧
    (∀ t : AppState, t.currentPrompt = none →
      handleGenerateIdeasRun hasApiKey gen t = ([t], 0)) := by
  refine ⟨?_, fun t ht => handleGenerateIdeasRun_no_prompt hasApiKey gen t ht⟩
  obtain ⟨cp, i0, l0, e0, g0⟩ := s
  simp only [AppState.isLoadingIdeas] at hnl
  subst hnl
  cases cp with
  | none =>
      exfalso
      rcases hload with ⟨t, ht, hl⟩
      simp [handleGenerateIdeasRun] at ht
      subst ht
      simp at hl
  | some p =>
      cases hasApiKey with
      | false =>
          exfalso
          rcases hload with ⟨t, ht, hl⟩
          simp [handleGenerateIdeasRun] at ht
          subst ht
          simp at hl
      | true =>
          refine ⟨p, rfl, ?_, ?_⟩
          · cases hgen : gen p with
            | ok ideas => simp [handleGenerateIdeas, handleGenerateIdeasRun, hgen]
            | error m => simp [handleGenerateIdeas, handleGenerateIdeasRun, hgen]
          · cases hgen : gen p with
            | ok ideas =>
                exact Or.inl ⟨ideas, rfl,
                  by simp [handleGenerateIdeas, handleGenerateIdeasRun, hgen]⟩
            | error m =>
                exact Or.inr ⟨m, rfl,
                  by simp [handleGenerateIdeas, handleGenerateIdeasRun, hgen]⟩

/-- Witness for C4: a successful run from a prompt-shown state. -/
theorem loading_flow_witness :
    ((AppState.mk (some (Prompt.mk "Fantasy" "x")) [] false none "All").isLoadingIdeas
        = false) ∧
    (∃ t ∈ (handleGenerateIdeasRun true (fun _ => Except.ok ["w"])
        (AppState.mk (some (Prompt.mk "Fantasy" "x")) [] false none "All")).1,
      t.isLoadingIdeas = true) ∧
    ((∃ p, (AppState.mk (some (Prompt.mk "Fantasy" "x")) [] false none "All").currentPrompt
          = some p ∧
      (handleGenerateIdeas true (fun _ => Except.ok ["w"])
        (AppState.mk (some (Prompt.mk "Fantasy" "x")) [] false none "All")).isLoadingIdeas
          = false ∧
      ((∃ ideas, (fun _ => Except.ok ["w"] : Prompt → Except (Option String) (List String)) p
            = Except.ok ideas ∧
          (handleGenerateIdeas true (fun _ => Except.ok ["w"])
            (AppState.mk (some (Prompt.mk "Fantasy" "x")) [] false none "All")).storyIdeas
            = ideas) ∨
       (∃ m, (fun _ => Except.ok ["w"] : Prompt → Except (Option String) (List String)) p
            = Except.error m ∧
          (handleGenerateIdeas true (fun _ => Except.ok ["w"])
            (AppState.mk (some (Prompt.mk "Fantasy" "x")) [] false none "All")).error
            = some (jsMessageOr m unknownErrorMsg)))) ∧
     (∀ t : AppState, t.currentPrompt = none →
        handleGenerateIdeasRun true (fun _ => Except.ok ["w"]) t = ([t], 0))) :=
  ⟨rfl,
   ⟨AppState.mk (some (Prompt.mk "Fantasy" "x")) [] true none "All", by decide, rfl⟩,
   loading_flow true (fun _ => Except.ok ["w"])
     (AppState.mk (some (Prompt.mk "Fantasy" "x")) [] false none "All") rfl
     ⟨AppState.mk (some (Prompt.mk "Fantasy" "x")) [] true none "All", by decide, rfl⟩⟩

/-- Claim C5: when the AI call fails, the only handling is surfacing the
raw message: the final state keeps everything except that the error is
set to the thrown message (the fixed fallback when the message is
absent), the idea list is empty (no partial result) and loading is off. -/
theorem failure_surfaces_raw_message
    (gen : Prompt → Except (Option String) (List String))
    (s : AppState) (p : Prompt) (m : Option String)
    (hp : s.currentPrompt = some p)
    (herr : gen p = Except.error m) :
    handleGenerateIdeas true gen s =
      { s with storyIdeas := [], isLoadingIdeas := false,
               error := some (jsMessageOr m unknownErrorMsg) } ∧
    jsMessageOr none unknownErrorMsg = "An unknown error occurred." ∧
    (∀ msg : String, msg ≠ "" → jsMessageOr (some msg) unknownErrorMsg = msg) := by
  obtain ⟨cp, i0, l0, e0, g0⟩ := s
  simp only [AppState.currentPrompt] at hp
  subst hp
  refine ⟨by simp [handleGenerateIdeas, handleGenerateIdeasRun, herr], rfl, ?_⟩
  intro msg hmsg
  simp [jsMessageOr, hmsg]

/-- Witness for C5: a failing call whose thrown value has message
`"boom"`. -/
theorem failure_surfaces_raw_message_witness :
    handleGenerateIdeas true (fun _ => Except.error (some "boom"))
        (AppState.mk (some (Prompt.mk "Fantasy" "x")) ["old"] false none "All")
      = { AppState.mk (some (Prompt.mk "Fantasy" "x")) ["old"] false none "All" with
          storyIdeas := [], isLoadingIdeas := false,
          error := some (jsMessageOr (some "boom") unknownErrorMsg) } ∧
    jsMessageOr none unknownErrorMsg = "An unknown error occurred." ∧
    (∀ msg : String, msg ≠ "" → jsMessageOr (some msg) unknownErrorMsg = msg) :=
  failure_surfaces_raw_message (fun _ => Except.error (some "boom"))
    (AppState.mk (some (Prompt.mk "Fantasy" "x")) ["old"] false none "All")
    (Prompt.mk "Fantasy" "x") (some "boom") rfl rfl

/-- Claim C6: one invocation of `handleGenerateIdeas` calls
`generateStoryIdeas` at most once — there is a single call site and no
retry on failure. -/
theorem generateStoryIdeas_called_at_most_once
    (hasApiKey : Bool) (gen : Prompt → Except (Option String) (List String))
    (s : AppState) :
    (handleGenerateIdeasRun hasApiKey gen s).2 ≤ 1 := by
  obtain ⟨cp, i0, l0, e0, g0⟩ := s
  cases cp with
  | none => exact Nat.zero_le 1
  | some p =>
      cases hasApiKey with
      | false => exact Nat.zero_le 1
      | true =>
          cases hgen : gen p with
          | ok ideas => simp [handleGenerateIdeasRun, hgen]
          | error m => simp [handleGenerateIdeasRun, hgen]

/-- Claim C7: generating ideas never changes the current prompt or the
selected genre: every trace state and the final state agree with the
entry state on both fields, on every path (early return, failure,
success). -/
theorem generateIdeas_preserves_prompt_and_genre
    (hasApiKey : Bool) (gen : Prompt → Except (Option String) (List String))
    (s t : AppState) (ht : t ∈ (handleGenerateIdeasRun hasApiKey gen s).1) :
    t.currentPrompt = s.currentPrompt ∧ t.selectedGenre = s.selectedGenre ∧
    (handleGenerateIdeas hasApiKey gen s).currentPrompt = s.currentPrompt ∧
    (handleGenerateIdeas hasApiKey gen s).selectedGenre = s.selectedGenre := by
  have h1 := handleGenerateIdeasRun_frame hasApiKey gen s t ht
  have h2 := handleGenerateIdeasRun_frame hasApiKey gen s
    (handleGenerateIdeas hasApiKey gen s) (handleGenerateIdeas_mem_run hasApiKey gen s)
  exact ⟨h1.1, h1.2, h2.1, h2.2⟩

/-- Witness for C7 at the initial state with a trivial AI service. -/
theorem generateIdeas_preserves_prompt_and_genre_witness :
    initialState ∈ (handleGenerateIdeasRun true (fun _ => Except.ok []) initialState).1 ∧
    (initialState.currentPrompt = initialState.currentPrompt ∧
     initialState.selectedGenre = initialState.selectedGenre ∧
     (handleGenerateIdeas true (fun _ => Except.ok []) initialState).currentPrompt
       = initialState.currentPrompt ∧
     (handleGenerateIdeas true (fun _ => Except.ok []) initialState).selectedGenre
       = initialState.selectedGenre) :=
  ⟨by decide,
   generateIdeas_preserves_prompt_and_genre true (fun _ => Except.ok [])
     initialState initialState (by decide)⟩

/-- Claim C8: with no API key and a selected prompt,
`handleGenerateIdeas` sets the fixed disabled-features error, makes no
AI call, and leaves the current prompt, the idea list and the loading
flag unchanged. -/
theorem no_api_key_sets_error_and_stops
    (gen : Prompt → Except (Option String) (List String))
    (s : AppState) (p : Prompt) (hp : s.currentPrompt = some p) :
    (handleGenerateIdeas false gen s).error = some noApiKeyMsg ∧
    noApiKeyMsg = "AI features are disabled. Please configure your API key." ∧
    (handleGenerateIdeasRun false gen s).2 = 0 ∧
    (handleGenerateIdeas false gen s).currentPrompt = s.currentPrompt ∧
    (handleGenerateIdeas false gen s).storyIdeas = s.storyIdeas ∧
    (handleGenerateIdeas false gen s).isLoadingIdeas = s.isLoadingIdeas := by
  obtain ⟨cp, i0, l0, e0, g0⟩ := s
  simp only [AppState.currentPrompt] at hp
  subst hp
  exact ⟨rfl, rfl, rfl, rfl, rfl, rfl⟩

/-- Witness for C8 with a prompt shown and ideas already listed. -/
theorem no_api_key_sets_error_and_stops_witness :
    (handleGenerateIdeas false (fun _ => Except.ok ["w"])
        (AppState.mk (some (Prompt.mk "Fantasy" "x")) ["old"] false none "All")).error
      = some noApiKeyMsg ∧
    noApiKeyMsg = "AI features are disabled. Please configure your API key." ∧
    (handleGenerateIdeasRun false (fun _ => Except.ok ["w"])
        (AppState.mk (some (Prompt.mk "Fantasy" "x")) ["old"] false none "All")).2 = 0 ∧
    (handleGenerateIdeas false (fun _ => Except.ok ["w"])
        (AppState.mk (some (Prompt.mk "Fantasy" "x")) ["old"] false none "All")).currentPrompt
      = (AppState.mk (some (Prompt.mk "Fantasy" "x")) ["old"] false none "All").currentPrompt ∧
    (handleGenerateIdeas false (fun _ => Except.ok ["w"])
        (AppState.mk (some (Prompt.mk "Fantasy" "x")) ["old"] false none "All")).storyIdeas
      = (AppState.mk (some (Prompt.mk "Fantasy" "x")) ["old"] false none "All").storyIdeas ∧
    (handleGenerateIdeas false (fun _ => Except.ok ["w"])
        (AppState.mk (some (Prompt.mk "Fantasy" "x")) ["old"] false none "All")).isLoadingIdeas
      = (AppState.mk (some (Prompt.mk "Fantasy" "x")) ["old"] false none "All").isLoadingIdeas :=
  no_api_key_sets_error_and_stops (fun _ => Except.ok ["w"])
    (AppState.mk (some (Prompt.mk "Fantasy" "x")) ["old"] false none "All")
    (Prompt.mk "Fantasy" "x") rfl

/-- Claim C9: when the selected genre matches no prompt,
`handleGeneratePrompt` only sets an error naming the selected genre; the
current prompt and the idea list are unchanged. -/
theorem generatePrompt_no_match_atomic
    (prompts : List Prompt) (randomIndex : Nat) (s : AppState)
    (h : filteredPrompts prompts s.selectedGenre = []) :
    (handleGeneratePrompt prompts randomIndex s).error
      = some (noPromptsMsg s.selectedGenre) ∧
    noPromptsMsg s.selectedGenre
      = "No prompts found for the \"" ++ s.selectedGenre
          ++ "\" genre. Please select another." ∧
    (handleGeneratePrompt prompts randomIndex s).currentPrompt = s.currentPrompt ∧
    (handleGeneratePrompt prompts randomIndex s).storyIdeas = s.storyIdeas := by
  obtain ⟨cp, i0, l0, e0, g0⟩ := s
  simp only [AppState.selectedGenre] at h
  refine ⟨?_, rfl, ?_, ?_⟩ <;> simp [handleGeneratePrompt, h]

/-- Witness for C9: the modelled `PROMPTS` has no `"Western"` prompt. -/
theorem generatePrompt_no_match_atomic_witness :
    filteredPrompts PROMPTS "Western" = [] ∧
    ((handleGeneratePrompt PROMPTS 0
        (AppState.mk none ["old"] false none "Western")).error
      = some (noPromptsMsg "Western") ∧
    noPromptsMsg "Western"
      = "No prompts found for the \"" ++ "Western" ++ "\" genre. Please select another." ∧
    (handleGeneratePrompt PROMPTS 0
        (AppState.mk none ["old"] false none "Western")).currentPrompt
      = (AppState.mk none ["old"] false none "Western").currentPrompt ∧
    (handleGeneratePrompt PROMPTS 0
        (AppState.mk none ["old"] false none "Western")).storyIdeas
      = (AppState.mk none ["old"] false none "Western").storyIdeas) :=
  ⟨by decide,
   generatePrompt_no_match_atomic PROMPTS 0
     (AppState.mk none ["old"] false none "Western") (by decide)⟩

/-- Claim C10: a run of `handleGenerateIdeas` that sets the loading flag
(prompt selected, API key present) first shows the loading state and
always finishes with the loading flag off, on success and on failure
alike. -/
theorem loading_cleared_on_completion
    (gen : Prompt → Except (Option String) (List String))
    (s : AppState) (p : Prompt) (hp : s.currentPrompt = some p) :
    ((handleGenerateIdeasRun true gen s).1.headD s).isLoadingIdeas = true ∧
    (handleGenerateIdeas true gen s).isLoadingIdeas = false := by
  obtain ⟨cp, i0, l0, e0, g0⟩ := s
  simp only [AppState.currentPrompt] at hp
  subst hp
  cases hgen : gen p with
  | ok ideas =>
      exact ⟨by simp [handleGenerateIdeasRun, hgen],
        by simp [handleGenerateIdeas, handleGenerateIdeasRun, hgen]⟩
  | error m =>
      exact ⟨by simp [handleGenerateIdeasRun, hgen],
        by simp [handleGenerateIdeas, handleGenerateIdeasRun, hgen]⟩

/-- Witness for C10: a failing call still clears the loading flag. -/
theorem loading_cleared_on_completion_witness :
    ((handleGenerateIdeasRun true (fun _ => Except.error none)
        (AppState.mk (some (Prompt.mk "Fantasy" "x")) [] false none "All")).1.headD
        (AppState.mk (some (Prompt.mk "Fantasy" "x")) [] false none "All")).isLoadingIdeas
      = true ∧
    (handleGenerateIdeas true (fun _ => Except.error none)
        (AppState.mk (some (Prompt.mk "Fantasy" "x")) [] false none "All")).isLoadingIdeas
      = false :=
  loading_cleared_on_completion (fun _ => Except.error none)
    (AppState.mk (some (Prompt.mk "Fantasy" "x")) [] false none "All")
    (Prompt.mk "Fantasy" "x") rfl
